import Mathlib

/-!
Verification development for the course-evaluation store (`evaluation_db.py`,
`evaluation_api.py`).  The write path `import_evaluations` and the read path
`get_subject_overview_df` are embedded shallowly: the SQLite relations become
lists of rows, a parsed pandas DataFrame becomes a header plus rows of typed
cells, and numeric values are modelled as exact rationals (the Python code
computes with binary floats; every concrete value exercised below is exactly
representable, and the claims' formulas are stated over the same expressions).
SQL `ORDER BY` and pandas multi-column `sort_values` are modelled by the stable
`List.insertionSort` (pandas lexsort is stable; SQLite leaves ties unspecified,
so the model fixes them by source order).
-/

/-- A cell of the pandas DataFrame produced by `pd.read_csv(csv, sep=';',
decimal=',')`: either missing (NaN), a number (a column pandas inferred as
numeric), or a leftover string.  Bool-typed cells and non-finite floats do not
occur in the data the claims are about and are not modelled. -/
inductive Cell where
  | na : Cell
  | num (q : ℚ) : Cell
  | str (s : String) : Cell
deriving DecidableEq

/-- The parsed CSV as pandas delivers it to `import_evaluations`: the header
(`df.columns`) and one list of cells per row. -/
structure Df where
  header : List String
  rows : List (List Cell)
deriving DecidableEq

/-- `row.get(col, None)` on a pandas row: the cell under the first header
occurrence of `col`, or `none` when the column is absent. -/
def rowGet (header : List String) (row : List Cell) (col : String) : Option Cell :=
  ((header.zip row).find? (fun p => p.1 == col)).map (fun p => p.2)

/-- Python `str(x)` on a cell.  Only string cells (and NaN) are fed to it by
the claims; the numeric branch uses Lean's rational printing, which differs
from Python float formatting but is never exercised below. -/
def pyStr : Cell → String
  | Cell.na => "nan"
  | Cell.num q => toString q
  | Cell.str s => s

/-! String primitives are modelled on character lists with structural
recursion (the library's `String.trim`, `String.replace` and `substrEq` are
well-founded recursions that the kernel cannot evaluate).  Python's `.strip()`
and `.lower()` also handle non-ASCII whitespace/letters; every string these
are applied to below is ASCII apart from fixed Norwegian literals that
contain no uppercase non-ASCII letters. -/

/-- Python `s.strip()`: whitespace removed from both ends. -/
def pyStrip (s : String) : String :=
  String.mk (((s.data.dropWhile Char.isWhitespace).reverse.dropWhile
    Char.isWhitespace).reverse)

/-- Python `s.lower()` (ASCII). -/
def pyLower (s : String) : String :=
  String.mk (s.data.map Char.toLower)

/-- One pass of `str.replace` on character lists; the fuel argument only
bounds recursion depth (it is seeded with the list length plus one, and every
step consumes at least one character since no caller passes an empty
pattern). -/
def replaceAux (pat rep : List Char) : Nat → List Char → List Char
  | _, [] => []
  | 0, l => l
  | fuel + 1, a :: l =>
    if pat.isPrefixOf (a :: l) then rep ++ replaceAux pat rep fuel ((a :: l).drop pat.length)
    else a :: replaceAux pat rep fuel l

/-- Python `s.replace(pat, rep)`: all non-overlapping occurrences, left to
right. -/
def pyReplace (s pat rep : String) : String :=
  String.mk (replaceAux pat.data rep.data (s.data.length + 1) s.data)

/-- Digit run to a natural number. -/
def natOfDigits (l : List Char) : Nat :=
  l.foldl (fun n c => n * 10 + (c.toNat - '0'.toNat)) 0

/-! Exact rational arithmetic, written with `mkRat` and integer operations so
that every model value kernel-reduces (the library's `Rat.mul`, `Rat.div`,
`Rat.add` and `Rat.neg` are irreducible by design).  The bridging theorems
right below each definition certify that these are the ordinary field
operations on `ℚ`. -/

/-- An integer as a rational. -/
def qOfInt (n : Int) : ℚ :=
  mkRat n 1

theorem qOfInt_eq (n : Int) : qOfInt n = (n : ℚ) := by
  simp [qOfInt]

/-- A fraction with integer numerator and denominator. -/
def mkQ (n d : Int) : ℚ :=
  if d < 0 then mkRat (-n) (-d).toNat else mkRat n d.toNat

theorem mkQ_eq (n d : Int) : mkQ n d = (n : ℚ) / (d : ℚ) := by
  unfold mkQ
  split_ifs with h
  · rw [Rat.mkRat_eq_div]
    have h2 : (((-d).toNat : ℤ) : ℚ) = ((-d : ℤ) : ℚ) := by
      exact_mod_cast congrArg (fun z : ℤ => (z : ℚ)) (Int.toNat_of_nonneg (by omega))
    push_cast at h2 ⊢
    rw [h2]
    exact neg_div_neg_eq (n : ℚ) (d : ℚ)
  · rw [Rat.mkRat_eq_div]
    have h2 : ((d.toNat : ℤ) : ℚ) = ((d : ℤ) : ℚ) := by
      exact_mod_cast congrArg (fun z : ℤ => (z : ℚ)) (Int.toNat_of_nonneg (by omega))
    push_cast at h2 ⊢
    rw [h2]

/-- Multiplication of rationals. -/
def qMul (a b : ℚ) : ℚ :=
  mkQ (a.num * b.num) ((a.den : Int) * (b.den : Int))

theorem qMul_eq (a b : ℚ) : qMul a b = a * b := by
  unfold qMul
  rw [mkQ_eq]
  push_cast
  rw [div_mul_div_comm (a.num : ℚ) (a.den : ℚ) (b.num : ℚ) (b.den : ℚ) |>.symm,
    Rat.num_div_den, Rat.num_div_den]

/-- Division of rationals (zero when the divisor is zero, as on `ℚ`). -/
def qDiv (a b : ℚ) : ℚ :=
  mkQ (a.num * (b.den : Int)) ((a.den : Int) * b.num)

theorem qDiv_eq (a b : ℚ) : qDiv a b = a / b := by
  unfold qDiv
  rw [mkQ_eq]
  by_cases hb : b = 0
  · subst hb
    simp
  · have hbn : (b.num : ℚ) ≠ 0 := by
      exact_mod_cast Rat.num_ne_zero.mpr hb
    have had : (a.den : ℚ) ≠ 0 := by
      exact_mod_cast a.den_nz
    have hbd : (b.den : ℚ) ≠ 0 := by
      exact_mod_cast b.den_nz
    rw [show a / b = ((a.num : ℚ) / a.den) / ((b.num : ℚ) / b.den) by
      rw [Rat.num_div_den, Rat.num_div_den]]
    push_cast
    field_simp

/-- Python `float(s)` on a finite decimal literal: optional sign, digits with
at most one dot (at least one digit overall), optional exponent.  `inf`/`nan`
and digit-group underscores are not modelled (they never parse to a stored
rational value in this development). -/
def pyFloat (s : String) : Option ℚ :=
  let cs := (pyStrip s).toList
  let sgn : Int := match cs with
    | '-' :: _ => -1
    | _ => 1
  let cs1 := match cs with
    | '+' :: r => r
    | '-' :: r => r
    | r => r
  let ip := cs1.takeWhile Char.isDigit
  let rest1 := cs1.dropWhile Char.isDigit
  let fp := match rest1 with
    | '.' :: r => r.takeWhile Char.isDigit
    | _ => []
  let rest2 := match rest1 with
    | '.' :: r => r.dropWhile Char.isDigit
    | r => r
  if ip.isEmpty ∧ fp.isEmpty then none
  else
    let mant : ℚ := mkRat (sgn * (natOfDigits (ip ++ fp) : Int)) (10 ^ fp.length)
    match rest2 with
    | [] => some mant
    | e :: r =>
      if e = 'e' ∨ e = 'E' then
        let epos : Bool := match r with
          | '-' :: _ => false
          | _ => true
        let r1 := match r with
          | '+' :: r' => r'
          | '-' :: r' => r'
          | r' => r'
        let ed := r1.takeWhile Char.isDigit
        if ed.isEmpty ∨ ¬ (r1.dropWhile Char.isDigit).isEmpty then none
        else if epos then some (qMul mant (qOfInt ((10 ^ natOfDigits ed : Nat) : Int)))
        else some (qDiv mant (qOfInt ((10 ^ natOfDigits ed : Nat) : Int)))
      else none

/-- Python `int(s)`: optional sign then digits only (so `int("4.5")` fails,
which is what makes a decimal answered/invited cell parse to null). -/
def pyInt (s : String) : Option Int :=
  let cs := (pyStrip s).toList
  let sgn : Int := match cs with
    | '-' :: _ => -1
    | _ => 1
  let cs1 := match cs with
    | '+' :: r => r
    | '-' :: r => r
    | r => r
  let ds := cs1.takeWhile Char.isDigit
  if ds.isEmpty ∨ ¬ (cs1.dropWhile Char.isDigit).isEmpty then none
  else some (sgn * (natOfDigits ds : Int))

/-- Python `int(x)` on a float: truncation toward zero. -/
def ratTrunc (q : ℚ) : Int :=
  Int.tdiv q.num (q.den : Int)

/-- Python `round(x)` with no digits argument: round half to even, computed
on the exact fraction (floor, then compare twice the fractional remainder
with the denominator).  `pyRound_eq` below restates it with `⌊·⌋` on `ℚ`. -/
def pyRound (q : ℚ) : Int :=
  let f := Int.fdiv q.num (q.den : Int)
  let tw := 2 * (q.num - f * (q.den : Int))
  if tw < (q.den : Int) then f
  else if (q.den : Int) < tw then f + 1
  else if f % 2 = 0 then f else f + 1

theorem pyRound_eq (q : ℚ) :
    pyRound q =
      if q - (⌊q⌋ : ℚ) < 1 / 2 then ⌊q⌋
      else if (1 : ℚ) / 2 < q - (⌊q⌋ : ℚ) then ⌊q⌋ + 1
      else if ⌊q⌋ % 2 = 0 then ⌊q⌋ else ⌊q⌋ + 1 := by
  have hdpos : (0 : ℤ) < (q.den : ℤ) := by exact_mod_cast q.den_pos
  have hf : Int.fdiv q.num (q.den : ℤ) = ⌊q⌋ := by
    rw [Rat.floor_def, Int.fdiv_eq_ediv _ (le_of_lt hdpos)]
  have hrem : q - (⌊q⌋ : ℚ) = ((q.num - ⌊q⌋ * (q.den : ℤ) : ℤ) : ℚ) / ((q.den : ℤ) : ℚ) := by
    have hden : ((q.den : ℚ)) ≠ 0 := by
      exact_mod_cast q.den_nz
    push_cast
    rw [sub_div, Rat.num_div_den, mul_div_assoc, div_self hden, mul_one]
  have hdQ : (0 : ℚ) < ((q.den : ℤ) : ℚ) := by exact_mod_cast hdpos
  have h1 : (2 * (q.num - ⌊q⌋ * (q.den : ℤ)) < (q.den : ℤ)) ↔ (q - (⌊q⌋ : ℚ) < 1 / 2) := by
    rw [hrem, div_lt_div_iff hdQ (by norm_num : (0 : ℚ) < 2)]
    have hcast : ((q.num - ⌊q⌋ * (q.den : ℤ) : ℤ) : ℚ) * 2 < 1 * ((q.den : ℤ) : ℚ) ↔
        ((q.num - ⌊q⌋ * (q.den : ℤ)) * 2 < 1 * (q.den : ℤ)) := by
      exact_mod_cast Iff.rfl
    rw [hcast]
    omega
  have h2 : ((q.den : ℤ) < 2 * (q.num - ⌊q⌋ * (q.den : ℤ))) ↔ ((1 : ℚ) / 2 < q - (⌊q⌋ : ℚ)) := by
    rw [hrem, div_lt_div_iff (by norm_num : (0 : ℚ) < 2) hdQ]
    have hcast : (1 : ℚ) * ((q.den : ℤ) : ℚ) < ((q.num - ⌊q⌋ * (q.den : ℤ) : ℤ) : ℚ) * 2 ↔
        (1 * (q.den : ℤ) < (q.num - ⌊q⌋ * (q.den : ℤ)) * 2) := by
      exact_mod_cast Iff.rfl
    rw [hcast]
    omega
  unfold pyRound
  rw [hf]
  simp only [h1, h2]

/-- Python `needle in hay` on strings. -/
def strContains (hay needle : String) : Bool :=
  (List.range (hay.toList.length + 1)).any
    (fun i => needle.toList.isPrefixOf (hay.toList.drop i))

/-- Lexicographic code-point order on strings, as Python compares them and as
pandas sorts object-dtype group keys. -/
def charListLe : List Char → List Char → Bool
  | [], _ => true
  | _ :: _, [] => false
  | a :: as, b :: bs => if a = b then charListLe as bs else decide (a < b)

/-- String order used for the pandas `groupby` key sort. -/
def pyStrLe (a b : String) : Bool :=
  charListLe a.toList b.toList

/-- `pandas.unique`: first occurrences in order. -/
def uniqueKeepFirst {α : Type} [BEq α] (l : List α) : List α :=
  l.foldl (fun acc a => if acc.contains a then acc else acc ++ [a]) []

/-! ## The relational store (`init_db`, `evaluation_db.py` lines 6-53).
Auto-increment ids that nothing in the repository ever reads back
(`EvaluationResult.id`) are omitted; `Evaluation.id` is kept because
`lastrowid` links the fact rows of one CSV row together. -/

structure SubjectRow where
  id : String
  name : Option String
deriving DecidableEq

structure QuestionRow where
  id : String
  label : String
  display_order : Nat
deriving DecidableEq

structure EvaluationRow where
  id : Nat
  subject_id : String
  year : Int
  term : String
deriving DecidableEq

structure EvaluationResultRow where
  evaluation_id : Nat
  question_id : String
  value : ℚ
deriving DecidableEq

structure EvaluationStatsRow where
  evaluation_id : Nat
  answered : Option Int
  invited : Option Int
  response_percent : Option String
deriving DecidableEq

/-- The whole store.  `nextEvalId` is SQLite's AUTOINCREMENT counter for
`Evaluation` (first insert gets id 1). -/
structure Db where
  subjects : List SubjectRow
  questions : List QuestionRow
  evaluations : List EvaluationRow
  results : List EvaluationResultRow
  stats : List EvaluationStatsRow
  nextEvalId : Nat
deriving DecidableEq

/-- A fresh store, as `init_db` leaves it. -/
def emptyDb : Db :=
  ⟨[], [], [], [], [], 1⟩

/-! ## The importer (`import_evaluations`, `evaluation_db.py` lines 56-175). -/

/-- The fixed catalogue zipped with `range(1, 8)` (lines 74-87). -/
def catalogueEntries : List (String × String × Nat) :=
  [("1.1", "Forventninger", 1),
   ("1.2", "Struktur og organisering", 2),
   ("1.3", "Forelesninger", 3),
   ("1.4", "Andre læringsaktiviteter", 4),
   ("1.5", "Oppfølging, veiledning og tilbakemelding", 5),
   ("1.6", "Opplevd læring", 6),
   ("2", "Alt i alt", 7)]

/-- The same catalogue as (id, label) pairs, in loop order. -/
def questionCatalogue : List (String × String) :=
  catalogueEntries.map (fun e => (e.1, e.2.1))

/-- The seven `Question` rows the catalogue seeds. -/
def catalogueRows : List QuestionRow :=
  catalogueEntries.map (fun e => ⟨e.1, e.2.1, e.2.2⟩)

/-- One `INSERT OR IGNORE INTO Question` (line 84). -/
def insertQuestionIfAbsent (qs : List QuestionRow) (e : String × String × Nat) : List QuestionRow :=
  if qs.any (fun q => q.id == e.1) then qs else qs ++ [⟨e.1, e.2.1, e.2.2⟩]

/-- The catalogue-seeding loop over the `Question` relation (lines 83-87). -/
def seedQs (qs : List QuestionRow) : List QuestionRow :=
  catalogueEntries.foldl insertQuestionIfAbsent qs

/-- Seeding applied to the store. -/
def seedQuestions (db : Db) : Db :=
  ⟨db.subjects, seedQs db.questions, db.evaluations, db.results, db.stats, db.nextEvalId⟩

/-- Column resolution for answered counts: first header containing
`"antall svar"` case-insensitively (lines 94-98). -/
def findAnswerCol (cols : List String) : Option String :=
  cols.find? (fun c => strContains (pyLower c) "antall svar")

/-- Column resolution for invited counts (lines 100-104). -/
def findInvitedCol (cols : List String) : Option String :=
  cols.find? (fun c =>
    strContains (pyLower c) "antall invitert" || strContains (pyLower c) "antall inviterte")

/-- Column resolution for the stored percent string (lines 106-110). -/
def findPercentCol (cols : List String) : Option String :=
  cols.find? (fun c => strContains (pyLower c) "svar%" || strContains (pyLower c) "svarprosent")

/-- Sentinel texts that mean "not applicable" (line 129). -/
def sentinels : List String :=
  ["ikke relevant", "ikke-relevant", "n/a", "na"]

/-- The locale heuristic of line 134: with exactly one comma and more than one
dot, dots are thousands separators; otherwise the comma is the decimal point. -/
def normalizeDecimal (s : String) : String :=
  if s.toList.count ',' = 1 ∧ 1 < s.toList.count '.'
  then pyReplace (pyReplace (pyStrip s) "." "") "," "."
  else pyReplace (pyStrip s) "," "."

/-- The per-question-cell outcome of lines 125-139: `none` means no
`EvaluationResult` row is inserted (missing cell, NaN, sentinel text, or a
failed float parse); `some v` is the stored value. -/
def cellValue : Option Cell → Option ℚ
  | some (Cell.num q) => some q
  | some (Cell.str s) =>
    if sentinels.contains (pyLower (pyStrip s)) then none
    else pyFloat (normalizeDecimal s)
  | _ => none

/-- `str(row['Emne']).strip()` (line 113); the wrapper `import_evaluations`
guarantees the `Emne` column exists (a missing column raises out of the whole
call), so the default is never reached on accepted inputs. -/
def subjectOf (header : List String) (row : List Cell) : String :=
  pyStrip (pyStr ((rowGet header row "Emne").getD (Cell.str "")))

/-- The `EvaluationResult` rows inserted for one CSV row by the loop of
lines 123-143, in loop (catalogue) order. -/
def resultsForRow (header : List String) (eid : Nat) (row : List Cell) : List EvaluationResultRow :=
  questionCatalogue.filterMap (fun ql =>
    (cellValue (rowGet header row (ql.1 ++ " " ++ ql.2))).map
      (fun v => ⟨eid, ql.1, v⟩))

/-- Parsing of an answered/invited cell (lines 148-165): numeric cells are
truncated with `int`, strings go through
`int(str(val).replace(' ', '').replace(',', '.').strip())`. -/
def parseCount : Option Cell → Option Int
  | some (Cell.num q) => some (ratTrunc q)
  | some (Cell.str s) => pyInt (pyStrip (pyReplace (pyReplace s " " "") "," "."))
  | _ => none

/-- The stored percent text (lines 166-168). -/
def parsePercent : Option Cell → Option String
  | none => none
  | some Cell.na => none
  | some c => some (pyStrip (pyStr c))

/-- The `EvaluationStats` row inserted for one CSV row (lines 144-172). -/
def statsForRow (acol icol pcol : Option String) (header : List String) (eid : Nat)
    (row : List Cell) : EvaluationStatsRow :=
  ⟨eid,
   acol.bind (fun c => parseCount (rowGet header row c)),
   icol.bind (fun c => parseCount (rowGet header row c)),
   pcol.bind (fun c => parsePercent (rowGet header row c))⟩

/-- The body of the row loop (lines 112-172): upsert the subject, insert one
`Evaluation` unconditionally, insert the parsed results and exactly one stats
row. -/
def importRow (header : List String) (acol icol pcol : Option String) (year : Int)
    (term : String) (db : Db) (row : List Cell) : Db :=
  ⟨(if db.subjects.any (fun s => s.id == subjectOf header row) then db.subjects
    else db.subjects ++ [⟨subjectOf header row, none⟩]),
   db.questions,
   db.evaluations ++ [⟨db.nextEvalId, subjectOf header row, year, term⟩],
   db.results ++ resultsForRow header db.nextEvalId row,
   db.stats ++ [statsForRow acol icol pcol header db.nextEvalId row],
   db.nextEvalId + 1⟩

/-- `import_evaluations` applied to an already-parsed DataFrame: seed the
catalogue, resolve the stats columns once, then fold the row loop. -/
def importDf (db : Db) (df : Df) (year : Int) (term : String) : Db :=
  df.rows.foldl
    (importRow df.header (findAnswerCol df.header) (findInvitedCol df.header)
      (findPercentCol df.header) year term)
    (seedQuestions db)

/-- Modelled from the spec: the source defines no error types of its own —
whole-call failures are raw library exceptions (pandas on an unreadable CSV,
sqlite3 on schema trouble, `KeyError` on a missing `Emne` column) and the
enclosing connection is never committed, so the store is left unchanged.  The
spec's taxonomy (§4.3, §7) names the channels `SchemaError` and `DataError`;
this type realises that classification. -/
inductive ImportError where
  | schemaError (msg : String) : ImportError
  | dataError (msg : String) : ImportError
deriving DecidableEq

/-- The whole `import_evaluations` call: `csvRead` is the outcome of
`pd.read_csv` (an external parse that may fail as a whole), a present `Emne`
column is required by `row['Emne']` once there are rows, and any failure
leaves the store untouched (the connection is never committed).  Schema
creation (`init_db`) is idempotent create-if-absent and cannot fail in the
store model. -/
def import_evaluations (db : Db) (csvRead : Except String Df) (year : Int)
    (term : String) : Except ImportError Db :=
  match csvRead with
  | Except.error msg => Except.error (ImportError.dataError msg)
  | Except.ok df =>
    if df.rows.isEmpty ∨ "Emne" ∈ df.header
    then Except.ok (importDf db df year term)
    else Except.error (ImportError.dataError "CSV rows have no Emne column")

/-! ## The overview builder (`get_subject_overview_df`, lines 342-409). -/

/-- One tuple of the SQL fetch (lines 355-374).  `dorder` carries
`q.display_order`, used only by `ORDER BY`. -/
structure FetchRow where
  year : Int
  term : String
  qid : Option String
  qlabel : Option String
  dorder : Option Nat
  value : Option ℚ
  answered : Option Int
  invited : Option Int
deriving DecidableEq

/-- `LEFT JOIN`: an empty match set yields one all-null extension. -/
def leftOpt {α : Type} : List α → List (Option α)
  | [] => [none]
  | l => l.map some

/-- The join pipeline of the fetch query, before `ORDER BY`:
`Evaluation JOIN Subject LEFT JOIN EvaluationResult LEFT JOIN Question
LEFT JOIN EvaluationStats WHERE s.id = subject`. -/
def fetchRows (db : Db) (subject : String) : List FetchRow :=
  (db.evaluations.filter (fun e => e.subject_id == subject)).flatMap (fun e =>
    (db.subjects.filter (fun s => s.id == subject)).flatMap (fun _ =>
      (leftOpt (db.results.filter (fun rr => rr.evaluation_id == e.id))).flatMap (fun er? =>
        (leftOpt (match er? with
          | none => ([] : List QuestionRow)
          | some er => db.questions.filter (fun q => q.id == er.question_id))).flatMap (fun q? =>
          (leftOpt (db.stats.filter (fun st => st.evaluation_id == e.id))).map (fun st? =>
            ⟨e.year, e.term,
             er?.map (fun er => er.question_id),
             q?.map (fun q => q.label),
             q?.map (fun q => q.display_order),
             er?.map (fun er => er.value),
             st?.bind (fun st => st.answered),
             st?.bind (fun st => st.invited)⟩)))))

/-- `ORDER BY e.year DESC, q.display_order` — ascending display order with SQL
NULLs first. -/
def optNatLe : Option Nat → Option Nat → Bool
  | none, _ => true
  | some _, none => false
  | some a, some b => a ≤ b

/-- The fetch sort key as a total Boolean preorder. -/
def fetchLe (a b : FetchRow) : Bool :=
  if a.year = b.year then optNatLe a.dorder b.dorder else decide (b.year < a.year)

/-- `df.sort_values(["year", "question_id"])` — ascending, NaN keys last. -/
def optStrLeNaLast : Option String → Option String → Bool
  | none, none => true
  | none, some _ => false
  | some _, none => true
  | some a, some b => pyStrLe a b

/-- The sort key used before `groupby` (line 390). -/
def rowSortLe (a b : FetchRow) : Bool :=
  if a.year = b.year then optStrLeNaLast a.qid b.qid else decide (a.year < b.year)

/-- The distinct question ids of the fetched rows in ascending order: the
iteration order of pandas `groupby("question_id")` (`sort=True`, NaN keys
dropped). -/
def questionIdsOf (rows : List FetchRow) : List String :=
  List.insertionSort (fun a b => pyStrLe a b = true)
    (uniqueKeepFirst (rows.filterMap (fun r => r.qid)))

/-- The ordered question-label list of lines 389-393: pandas `groupby`
(`sort=True`, NaN keys dropped) iterates distinct question ids in ascending
order; each group contributes its first label (first in (year, question_id)
sort order), deduplicated while keeping first appearance. -/
def questionOrder (rows : List FetchRow) : List (Option String) :=
  (questionIdsOf rows).foldl (fun acc k =>
    match ((List.insertionSort (fun a b => rowSortLe a b = true) rows).filter
        (fun r => r.qid == some k)).head? with
    | none => acc
    | some r => if acc.contains r.qlabel then acc else acc ++ [r.qlabel]) []

/-- An output cell: Python `None`, `int`, `float`, or `str`. -/
inductive Val where
  | null : Val
  | int (i : Int) : Val
  | rat (q : ℚ) : Val
  | str (s : String) : Val
deriving DecidableEq

/-- Output column names: the `"År"`/stats columns are strings, question
columns carry the joined label, which is SQL NULL for an uncatalogued id. -/
abbrev ColName := Option String

abbrev OverviewRow := List (ColName × Val)

abbrev Table := List OverviewRow

/-- `int(x) if pd.notnull(x) else None` on an already-integral stat. -/
def optIntVal : Option Int → Val
  | some n => Val.int n
  | none => Val.null

/-- The response-rate string of lines 403-407 (and the identical lambda of
382-387): recomputed from answered/invited whenever both are non-null and
invited is truthy (non-zero), else blank. -/
def svarPct : Option Int → Option Int → String
  | some a, some i =>
    if i ≠ 0 then toString (pyRound (qMul (qDiv (qOfInt a) (qOfInt i)) (qOfInt 100))) ++ " %"
    else ""
  | _, _ => ""

/-- `svarPct` in ordinary field arithmetic: it is
`round(answered / invited * 100)` with a `" %"` suffix. -/
theorem svarPct_eq (a i : Int) (hi : i ≠ 0) :
    svarPct (some a) (some i) = toString (pyRound ((a : ℚ) / (i : ℚ) * 100)) ++ " %" := by
  show (if i ≠ 0 then toString (pyRound (qMul (qDiv (qOfInt a) (qOfInt i)) (qOfInt 100))) ++ " %"
      else "") = _
  rw [if_pos hi, qMul_eq, qDiv_eq]
  simp only [qOfInt_eq]
  rw [show ((100 : ℤ) : ℚ) = (100 : ℚ) by norm_num]

/-- Elementwise pandas `==` between the label column and a label: comparison
with a NaN entry or a `None` key is `False`. -/
def pandasStrEq : Option String → Option String → Bool
  | some a, some b => a == b
  | _, _ => false

/-- One output row (lines 395-408): `"År"`, then the first matching value per
question label, then the stats taken from the year's first fetched row. -/
def buildRow (rows : List FetchRow) (qorder : List (Option String)) (includeStats : Bool)
    (y : Int) : OverviewRow :=
  let rowDf := rows.filter (fun r => r.year == y)
  let qcells := qorder.map (fun ql =>
    (ql,
     match (rowDf.filter (fun r => pandasStrEq r.qlabel ql)).head? with
     | some r =>
       match r.value with
       | some v => Val.rat v
       | none => Val.null
     | none => Val.null))
  let base := (some "År", Val.int y) :: qcells
  if includeStats then
    match rowDf.head? with
    | some first =>
      base ++ [(some "Antall svar", optIntVal first.answered),
               (some "Antall invitert", optIntVal first.invited),
               (some "Svar%", Val.str (svarPct first.answered first.invited))]
    | none => base
  else base

/-- The fetched tuples in `ORDER BY` order, as pandas receives them. -/
def overviewFetchSorted (db : Db) (subject : String) : List FetchRow :=
  List.insertionSort (fun a b => fetchLe a b = true) (fetchRows db subject)

/-- `df[df["question_id"].isin(question_ids)]` (lines 378-381): exact id
membership; rows with a NULL question id never match. -/
def applyQuestionFilter (questionIds : Option (List String)) (rows : List FetchRow) :
    List FetchRow :=
  match questionIds with
  | none => rows
  | some qs => rows.filter (fun r =>
      match r.qid with
      | some q => qs.contains q
      | none => false)

/-- `sorted(df["year"].unique())` (line 388). -/
def overviewYears (rows : List FetchRow) : List Int :=
  List.insertionSort (fun a b : Int => a ≤ b) (uniqueKeepFirst (rows.map (fun r => r.year)))

/-- `get_subject_overview_df` (lines 342-409): fetch and sort, optionally
filter by exact question-id membership (`isin`, which drops NULL ids), then
pivot to one row per year, years ascending. -/
def get_subject_overview_df (db : Db) (subject : String) (includeStats : Bool)
    (questionIds : Option (List String)) : Table :=
  if (overviewFetchSorted db subject).isEmpty then []
  else if (applyQuestionFilter questionIds (overviewFetchSorted db subject)).isEmpty then []
  else
    (overviewYears (applyQuestionFilter questionIds (overviewFetchSorted db subject))).map
      (buildRow (applyQuestionFilter questionIds (overviewFetchSorted db subject))
        (questionOrder (applyQuestionFilter questionIds (overviewFetchSorted db subject)))
        includeStats)

/-! ## The API's question filter (`evaluation_api.py`, `do_GET` lines 94-122). -/

/-- `df.columns` of a records table (all rows share one key list; an empty
DataFrame has no columns). -/
def apiColumns (t : Table) : List ColName :=
  match t.head? with
  | some row => row.map (fun p => p.1)
  | none => []

/-- The stats columns appended by the handler when `include_stats` holds. -/
def statsColNames : List String :=
  ["Antall svar", "Antall invitert", "Svar%"]

/-- `cols_to_keep` of lines 110-120: `"År"`, then for each requested code the
columns starting with `code + " "` or equal to it, then present stats columns.
A `None`-named column never matches (the handler would in fact crash on one;
no input below produces any). -/
def apiColsToKeep (cols : List ColName) (questions : List String)
    (includeStats : Bool) : List ColName :=
  (cols.filter (fun c => c == some "År"))
    ++ questions.flatMap (fun q => cols.filter (fun c =>
        match c with
        | some s => (q ++ " ").data.isPrefixOf s.data || s == q
        | none => false))
    ++ (if includeStats
        then (statsColNames.filter (fun s => cols.contains (some s))).map some
        else [])

/-- `df[cols_to_keep]`: select (and reorder) the kept columns in every row. -/
def selectColumns (t : Table) (keep : List ColName) : Table :=
  t.map (fun row => keep.filterMap (fun c => row.find? (fun p => p.1 == c)))

/-- The `/api/subject/<id>` data path: query the full overview (the handler
never passes a question filter to the database layer), then keep the matching
columns when a non-empty `questions` parameter was supplied. -/
def apiSubjectOverview (db : Db) (subject : String) (includeStats : Bool)
    (questions : Option (List String)) : Table :=
  let df := get_subject_overview_df db subject includeStats none
  match questions with
  | some qs =>
    if qs.isEmpty then df
    else selectColumns df (apiColsToKeep (apiColumns df) qs includeStats)
  | none => df

/-! ## Concrete stores and DataFrames used by the claims. -/

/-- The spec's concrete scenario row, with the question cell abstracted:
`Emne=AOS120; 1.1 Forventninger=<c>; Antall svar=30; Antall invitert=40`
(pandas parses the count columns as numbers). -/
def scenarioDfWith (c : Cell) : Df :=
  ⟨["Emne", "1.1 Forventninger", "Antall svar", "Antall invitert"],
   [[Cell.str "AOS120", c, Cell.num 30, Cell.num 40]]⟩

/-- The scenario DataFrame itself: pandas (`decimal=','`) parses the cell
`4,5` to the float 4.5 (written `mkRat 9 2`, the reducible spelling of
`(9 : ℚ) / 2`, cf. `Rat.mkRat_eq_div`). -/
def scenarioDf : Df :=
  scenarioDfWith (Cell.num (mkRat 9 2))

/-- The store after importing the scenario CSV with year 2023, term høst. -/
def scenarioDb : Db :=
  importDf emptyDb scenarioDf 2023 "høst"

/-! ## Shared facts about the importer. -/

theorem importRow_questions (header : List String) (acol icol pcol : Option String)
    (year : Int) (term : String) (db : Db) (row : List Cell) :
    (importRow header acol icol pcol year term db row).questions = db.questions :=
  rfl

theorem foldlRows_questions (header : List String) (acol icol pcol : Option String)
    (year : Int) (term : String) (rows : List (List Cell)) :
    ∀ db : Db,
      (rows.foldl (importRow header acol icol pcol year term) db).questions = db.questions := by
  induction rows with
  | nil => intro db; rfl
  | cons r rs ih =>
    intro db
    rw [List.foldl_cons, ih]
    rfl

theorem importDf_questions (db : Db) (df : Df) (year : Int) (term : String) :
    (importDf db df year term).questions = seedQs db.questions := by
  unfold importDf
  rw [foldlRows_questions]
  rfl

theorem seedQs_nil : seedQs [] = catalogueRows := by
  decide

theorem seedQs_catalogue : seedQs catalogueRows = catalogueRows := by
  decide

/-- Per-row evaluation/stats growth: each CSV row yields exactly one
`Evaluation` row and one `EvaluationStats` row, whatever its cells hold. -/
theorem importRow_lengths (header : List String) (acol icol pcol : Option String)
    (year : Int) (term : String) (db : Db) (row : List Cell) :
    (importRow header acol icol pcol year term db row).evaluations.length
        = db.evaluations.length + 1 ∧
      (importRow header acol icol pcol year term db row).stats.length
        = db.stats.length + 1 := by
  unfold importRow
  simp

theorem foldlRows_lengths (header : List String) (acol icol pcol : Option String)
    (year : Int) (term : String) (rows : List (List Cell)) :
    ∀ db : Db,
      (rows.foldl (importRow header acol icol pcol year term) db).evaluations.length
          = db.evaluations.length + rows.length ∧
        (rows.foldl (importRow header acol icol pcol year term) db).stats.length
          = db.stats.length + rows.length := by
  induction rows with
  | nil => intro db; exact ⟨rfl, rfl⟩
  | cons r rs ih =>
    intro db
    rw [List.foldl_cons]
    refine ⟨?_, ?_⟩
    · rw [(ih _).1, (importRow_lengths header acol icol pcol year term db r).1,
        List.length_cons]
      omega
    · rw [(ih _).2, (importRow_lengths header acol icol pcol year term db r).2,
        List.length_cons]
      omega

theorem importDf_lengths (db : Db) (df : Df) (year : Int) (term : String) :
    (importDf db df year term).evaluations.length
        = db.evaluations.length + df.rows.length ∧
      (importDf db df year term).stats.length = db.stats.length + df.rows.length := by
  unfold importDf
  exact foldlRows_lengths _ _ _ _ _ _ _ _

/-! ## C6: duplicate Evaluation rows on re-import. -/

/-- The `Evaluation` rows stored for one (subject, year, term). -/
def countEvals (db : Db) (s : String) (y : Int) (t : String) : Nat :=
  (db.evaluations.filter (fun e => e.subject_id == s && e.year == y && e.term == t)).length

/-- The CSV rows of a DataFrame whose (stripped) `Emne` cell is a subject. -/
def countRows (df : Df) (s : String) : Nat :=
  (df.rows.filter (fun r => subjectOf df.header r == s)).length

theorem countEvals_importRow (header : List String) (acol icol pcol : Option String)
    (y : Int) (t : String) (db : Db) (r : List Cell) (s : String) :
    countEvals (importRow header acol icol pcol y t db r) s y t =
      countEvals db s y t + (if subjectOf header r == s then 1 else 0) := by
  unfold countEvals importRow
  simp only [List.filter_append, List.length_append, List.filter_cons, List.filter_nil]
  have : (decide (y = y) && decide (t = t)) = true := by simp
  by_cases h : subjectOf header r == s
  · simp [h]
  · simp [h]

theorem countEvals_foldlRows (header : List String) (acol icol pcol : Option String)
    (y : Int) (t : String) (s : String) (rows : List (List Cell)) :
    ∀ db : Db,
      countEvals (rows.foldl (importRow header acol icol pcol y t) db) s y t =
        countEvals db s y t + (rows.filter (fun r => subjectOf header r == s)).length := by
  induction rows with
  | nil => intro db; rfl
  | cons r rs ih =>
    intro db
    rw [List.foldl_cons, ih, countEvals_importRow]
    by_cases h : subjectOf header r == s
    · simp [h, List.filter_cons]
      omega
    · simp [h, List.filter_cons]

theorem countEvals_seed (db : Db) (s : String) (y : Int) (t : String) :
    countEvals (seedQuestions db) s y t = countEvals db s y t :=
  rfl

theorem countEvals_importDf (db : Db) (df : Df) (y : Int) (t : String) (s : String) :
    countEvals (importDf db df y t) s y t = countEvals db s y t + countRows df s := by
  unfold importDf countRows
  rw [countEvals_foldlRows, countEvals_seed]

/-- C6: every processed CSV row unconditionally inserts a fresh `Evaluation`
row — there is no unique constraint or upsert on (subject, year, term) — so
importing the same CSV twice for the same year and term adds two `Evaluation`
rows per matching CSV row; in particular the scenario CSV imported twice into
a fresh store leaves exactly two `Evaluation` rows for (AOS120, 2023, høst). -/
theorem C6_duplicate_evaluations :
    (∀ (db : Db) (df : Df) (y : Int) (t : String) (s : String),
      countEvals (importDf (importDf db df y t) df y t) s y t =
        countEvals db s y t + 2 * countRows df s) ∧
    countEvals (importDf (importDf emptyDb scenarioDf 2023 "høst") scenarioDf 2023 "høst")
      "AOS120" 2023 "høst" = 2 := by
  constructor
  · intro db df y t s
    rw [countEvals_importDf, countEvals_importDf]
    omega
  · decide

/-! ## C7: the question catalogue is seeded idempotently. -/

/-- A sequence of `import_evaluations` calls applied to a store. -/
def applyImports (db : Db) (calls : List (Df × Int × String)) : Db :=
  calls.foldl (fun d c => importDf d c.1 c.2.1 c.2.2) db

/-- C7: after an import into a fresh store, and after any further sequence of
imports whatsoever, the `Question` relation holds exactly the seven catalogue
rows, unchanged in id, label and display order — repeated imports never
duplicate or mutate them. -/
theorem C7_idempotent_catalogue (df : Df) (y : Int) (t : String)
    (calls : List (Df × Int × String)) :
    (applyImports (importDf emptyDb df y t) calls).questions = catalogueRows := by
  have base : (importDf emptyDb df y t).questions = catalogueRows := by
    rw [importDf_questions]
    exact seedQs_nil
  suffices h : ∀ (cs : List (Df × Int × String)) (d : Db), d.questions = catalogueRows →
      (applyImports d cs).questions = catalogueRows from h calls _ base
  intro cs
  induction cs with
  | nil => intro d hd; exact hd
  | cons c cs ih =>
    intro d hd
    have : (importDf d c.1 c.2.1 c.2.2).questions = catalogueRows := by
      rw [importDf_questions, hd]
      exact seedQs_catalogue
    exact ih _ this

/-! ## C9: error model of the whole import call. -/

/-- C9: the call returns the updated store and nothing else on success —
arbitrary unparseable cells never fail it, every CSV row still yields its
`Evaluation` and `EvaluationStats` rows — and when it fails as a whole the
error is a `DataError` (the CSV read failed, or the rows have no `Emne`
column); in the store model schema creation cannot fail, so no other error
is ever produced. -/
theorem C9_error_model :
    (∀ (db : Db) (df : Df) (y : Int) (t : String), "Emne" ∈ df.header →
      ∃ db' : Db, import_evaluations db (Except.ok df) y t = Except.ok db' ∧
        db'.evaluations.length = db.evaluations.length + df.rows.length ∧
        db'.stats.length = db.stats.length + df.rows.length) ∧
    (∀ (db : Db) (c : Except String Df) (y : Int) (t : String) (e : ImportError),
      import_evaluations db c y t = Except.error e → ∃ m : String, e = ImportError.dataError m) := by
  constructor
  · intro db df y t hEmne
    refine ⟨importDf db df y t, ?_, (importDf_lengths db df y t).1, (importDf_lengths db df y t).2⟩
    simp only [import_evaluations]
    rw [if_pos (Or.inr hEmne)]
  · intro db c y t e h
    cases c with
    | error m =>
      refine ⟨m, ?_⟩
      simp only [import_evaluations] at h
      exact ((Except.error.injEq _ _).mp h).symm
    | ok df =>
      simp only [import_evaluations] at h
      by_cases hc : df.rows.isEmpty ∨ "Emne" ∈ df.header
      · rw [if_pos hc] at h
        exact absurd h (by simp)
      · rw [if_neg hc] at h
        exact ⟨"CSV rows have no Emne column", ((Except.error.injEq _ _).mp h).symm⟩

/-- A CSV whose cells are all garbage: the import still succeeds and imports
both rows' Evaluation and stats facts. -/
def garbageDf : Df :=
  ⟨["Emne", "1.1 Forventninger", "Antall svar"],
   [[Cell.na, Cell.str "ikke et tall,,", Cell.str "tretti"],
    [Cell.str "AOS120", Cell.str "4,5,6", Cell.na]]⟩

/-- Witness for C9: the garbage CSV is accepted whole. -/
theorem C9_error_model_witness :
    ∃ db' : Db, import_evaluations emptyDb (Except.ok garbageDf) 2023 "vår" = Except.ok db' ∧
      db'.evaluations.length = emptyDb.evaluations.length + garbageDf.rows.length ∧
      db'.stats.length = emptyDb.stats.length + garbageDf.rows.length :=
  C9_error_model.1 emptyDb garbageDf 2023 "vår" (by decide)

/-! ## C1: the round-trip scenario. -/

/-- The scenario CSV header. -/
def scenarioHdr : List String :=
  ["Emne", "1.1 Forventninger", "Antall svar", "Antall invitert"]

/-- The store the scenario import produces, parameterised by its
`EvaluationResult` rows. -/
def scenarioImportedDb (rs : List EvaluationResultRow) : Db :=
  ⟨[⟨"AOS120", none⟩], catalogueRows, [⟨1, "AOS120", 2023, "høst"⟩], rs,
   [⟨1, some 30, some 40, none⟩], 2⟩

set_option maxHeartbeats 3000000 in
theorem scenario_import_step (c : Cell) :
    importDf emptyDb (scenarioDfWith c) 2023 "høst" =
      scenarioImportedDb
        (resultsForRow scenarioHdr 1 [Cell.str "AOS120", c, Cell.num 30, Cell.num 40]) :=
  rfl

/-- Importing the scenario row depends on its question cell only through
`cellValue`. -/
theorem scenario_import_congr (c c' : Cell)
    (hcc : cellValue (some c) = cellValue (some c')) :
    importDf emptyDb (scenarioDfWith c) 2023 "høst" =
      importDf emptyDb (scenarioDfWith c') 2023 "høst" := by
  rw [scenario_import_step, scenario_import_step]
  congr 1
  unfold resultsForRow
  apply List.filterMap_congr
  intro ql hql
  fin_cases hql
  · show (cellValue (some c)).map _ = (cellValue (some c')).map _
    rw [hcc]
  · rfl
  · rfl
  · rfl
  · rfl
  · rfl
  · rfl

set_option maxHeartbeats 1000000 in
theorem scenario_overview_step (v : ℚ) :
    overviewFetchSorted (scenarioImportedDb [⟨1, "1.1", v⟩]) "AOS120" =
      [⟨2023, "høst", some "1.1", some "Forventninger", some 1, some v, some 30, some 40⟩] :=
  rfl

set_option maxHeartbeats 2000000 in
theorem scenario_overview (v : ℚ) :
    get_subject_overview_df (scenarioImportedDb [⟨1, "1.1", v⟩]) "AOS120" true none =
      [[(some "År", Val.int 2023), (some "Forventninger", Val.rat v),
        (some "Antall svar", Val.int 30), (some "Antall invitert", Val.int 40),
        (some "Svar%", Val.str "75 %")]] := by
  unfold get_subject_overview_df
  rw [scenario_overview_step]
  rfl

/-- The row the spec's concrete scenario claims for the overview: the question
column named `"1.1 Forventninger"`. -/
def claimedScenarioRow : OverviewRow :=
  [(some "År", Val.int 2023), (some "1.1 Forventninger", Val.rat (mkRat 9 2)),
   (some "Antall svar", Val.int 30), (some "Antall invitert", Val.int 40),
   (some "Svar%", Val.str "75 %")]

/-- C1, counterexample: after importing the scenario CSV, the overview's
question column is the bare label `"Forventninger"`, not
`"1.1 Forventninger"`, so the claimed row is not produced (the claimed value
4.5 is `mkRat 9 2`). -/
theorem C1_counterexample :
    get_subject_overview_df scenarioDb "AOS120" true none =
        [[(some "År", Val.int 2023), (some "Forventninger", Val.rat (mkRat 9 2)),
          (some "Antall svar", Val.int 30), (some "Antall invitert", Val.int 40),
          (some "Svar%", Val.str "75 %")]] ∧
      get_subject_overview_df scenarioDb "AOS120" true none ≠ [claimedScenarioRow] ∧
      (mkRat 9 2 : ℚ) = 9 / 2 := by
  refine ⟨by decide, by decide, ?_⟩
  rw [Rat.mkRat_eq_div]
  norm_num

/-- C1, amended: the round-trip holds with the overview's question column
named by the bare question label.  For every rational `v`, importing the
scenario row with question cell `v` (as pandas parses a numeric cell), or
with any non-sentinel string cell that parses to `v` under the importer's
decimal normalisation, yields exactly one overview row
`{"År": 2023, "Forventninger": v, "Antall svar": 30, "Antall invitert": 40,
"Svar%": "75 %"}`. -/
theorem C1_roundtrip_amended :
    (∀ v : ℚ,
      get_subject_overview_df (importDf emptyDb (scenarioDfWith (Cell.num v)) 2023 "høst")
          "AOS120" true none =
        [[(some "År", Val.int 2023), (some "Forventninger", Val.rat v),
          (some "Antall svar", Val.int 30), (some "Antall invitert", Val.int 40),
          (some "Svar%", Val.str "75 %")]]) ∧
    (∀ (s : String) (v : ℚ), sentinels.contains (pyLower (pyStrip s)) = false →
      pyFloat (normalizeDecimal s) = some v →
      get_subject_overview_df (importDf emptyDb (scenarioDfWith (Cell.str s)) 2023 "høst")
          "AOS120" true none =
        [[(some "År", Val.int 2023), (some "Forventninger", Val.rat v),
          (some "Antall svar", Val.int 30), (some "Antall invitert", Val.int 40),
          (some "Svar%", Val.str "75 %")]]) := by
  have hnum : ∀ v : ℚ,
      get_subject_overview_df (importDf emptyDb (scenarioDfWith (Cell.num v)) 2023 "høst")
          "AOS120" true none =
        [[(some "År", Val.int 2023), (some "Forventninger", Val.rat v),
          (some "Antall svar", Val.int 30), (some "Antall invitert", Val.int 40),
          (some "Svar%", Val.str "75 %")]] := by
    intro v
    have h1 : resultsForRow scenarioHdr 1 [Cell.str "AOS120", Cell.num v, Cell.num 30,
        Cell.num 40] = [⟨1, "1.1", v⟩] := rfl
    rw [scenario_import_step, h1]
    exact scenario_overview v
  refine ⟨hnum, ?_⟩
  intro s v hsent hparse
  have hcv : cellValue (some (Cell.str s)) = cellValue (some (Cell.num v)) := by
    show (if sentinels.contains (pyLower (pyStrip s)) then none
        else pyFloat (normalizeDecimal s)) = some v
    rw [hsent]
    simpa using hparse
  rw [scenario_import_congr (Cell.str s) (Cell.num v) hcv]
  exact hnum v

/-- Witness for C1 (amended): the string cell `"4,5"` parses to 4.5 and
round-trips. -/
theorem C1_roundtrip_amended_witness :
    get_subject_overview_df (importDf emptyDb (scenarioDfWith (Cell.str "4,5")) 2023 "høst")
        "AOS120" true none =
      [[(some "År", Val.int 2023), (some "Forventninger", Val.rat (mkRat 9 2)),
        (some "Antall svar", Val.int 30), (some "Antall invitert", Val.int 40),
        (some "Svar%", Val.str "75 %")]] :=
  C1_roundtrip_amended.2 "4,5" (mkRat 9 2) (by decide) (by decide)

/-! ## C2: the Svar% derivation. -/

/-- A store with one evaluation for AOS120 in 2023 whose stats are the
arbitrary `answered`/`invited` pair under test. -/
def statsDb (a i : Option Int) : Db :=
  ⟨[⟨"AOS120", none⟩], catalogueRows, [⟨1, "AOS120", 2023, "høst"⟩],
   [⟨1, "1.1", mkRat 9 2⟩], [⟨1, a, i, none⟩], 2⟩

/-- A store reached by importing a CSV row with `Antall invitert = -5`. -/
def negDb : Db :=
  importDf emptyDb
    ⟨["Emne", "1.1 Forventninger", "Antall svar", "Antall invitert"],
     [[Cell.str "AOS120", Cell.num 4, Cell.num 30, Cell.num (mkRat (-5) 1)]]⟩
    2023 "høst"

/-- C2, counterexample: with answered 30 and invited -5 (negative, hence
non-null and nonzero), the code computes `"-600 %"` where the claim demands
the empty string (it requires invited > 0 for a computed percentage). -/
theorem C2_counterexample :
    get_subject_overview_df negDb "AOS120" true none =
        [[(some "År", Val.int 2023), (some "Forventninger", Val.rat 4),
          (some "Antall svar", Val.int 30), (some "Antall invitert", Val.int (-5)),
          (some "Svar%", Val.str "-600 %")]] ∧
      ("-600 %" : String) ≠ "" := by
  exact ⟨by decide, by decide⟩

set_option maxHeartbeats 1300000 in
theorem statsDb_overview_step (a i : Option Int) :
    overviewFetchSorted (statsDb a i) "AOS120" =
      [⟨2023, "høst", some "1.1", some "Forventninger", some 1, some (mkRat 9 2), a, i⟩] :=
  rfl

/-- C2, amended: `"Svar%"` is `round(answered/invited*100)` with a `" %"`
suffix whenever both stats are non-null and invited is nonzero — including
negative invited — and the empty string otherwise (invited 0 or either stat
null). -/
theorem C2_svar_derivation (a i : Option Int) :
    get_subject_overview_df (statsDb a i) "AOS120" true none =
      [[(some "År", Val.int 2023), (some "Forventninger", Val.rat (mkRat 9 2)),
        (some "Antall svar", optIntVal a), (some "Antall invitert", optIntVal i),
        (some "Svar%", Val.str
          (match a, i with
           | some a', some i' =>
             if i' ≠ 0 then toString (pyRound ((a' : ℚ) / (i' : ℚ) * 100)) ++ " %" else ""
           | _, _ => ""))]] := by
  have hsv : svarPct a i =
      (match a, i with
       | some a', some i' =>
         if i' ≠ 0 then toString (pyRound ((a' : ℚ) / (i' : ℚ) * 100)) ++ " %" else ""
       | _, _ => "") := by
    cases a with
    | none => rfl
    | some a' =>
      cases i with
      | none => rfl
      | some i' =>
        by_cases hi : i' = 0
        · subst hi
          rfl
        · show svarPct (some a') (some i') = if i' ≠ 0 then _ else _
          rw [svarPct_eq a' i' hi, if_pos hi]
  rw [← hsv]
  unfold get_subject_overview_df
  rw [statsDb_overview_step]
  rfl

/-! ## C3: the API question filter. -/

/-- C3: requesting `questions=1.1` on the scenario store drops every question
column — the overview labels its columns with the bare `Question.label`
(`"Forventninger"`), while the handler keeps only columns starting with
`"1.1 "` or equal to `"1.1"` — leaving just `"År"` and the stats columns.
The claim (and the handler's own comment and module docstring) expect the
matching question column to be kept. -/
theorem C3_filter_drops_question_columns :
    apiSubjectOverview scenarioDb "AOS120" true (some ["1.1"]) =
        [[(some "År", Val.int 2023), (some "Antall svar", Val.int 30),
          (some "Antall invitert", Val.int 40), (some "Svar%", Val.str "75 %")]] ∧
      (apiColumns (apiSubjectOverview scenarioDb "AOS120" true (some ["1.1"]))).contains
          (some "Forventninger") = false ∧
      (apiColumns (apiSubjectOverview scenarioDb "AOS120" true (some ["1.1"]))).contains
          (some "1.1 Forventninger") = false := by
  exact ⟨by decide, by decide, by decide⟩

/-! ## C10: ties round to even. -/

/-- A store reached by importing answered 1, invited 8: the exact response
rate is 12.5 %. -/
def tieDb : Db :=
  importDf emptyDb
    ⟨["Emne", "1.1 Forventninger", "Antall svar", "Antall invitert"],
     [[Cell.str "AOS120", Cell.num 4, Cell.num 1, Cell.num 8]]⟩
    2023 "høst"

/-- C10: with answered 1 of invited 8 the overview shows `"12 %"` — Python's
`round` sends the tie 12.5 to the even 12, not up to 13. -/
theorem C10_ties_to_even :
    get_subject_overview_df tieDb "AOS120" true none =
        [[(some "År", Val.int 2023), (some "Forventninger", Val.rat 4),
          (some "Antall svar", Val.int 1), (some "Antall invitert", Val.int 8),
          (some "Svar%", Val.str "12 %")]] ∧
      ("12 %" : String) ≠ "13 %" ∧
      pyRound ((1 : ℚ) / 8 * 100) = 12 := by
  refine ⟨by decide, by decide, ?_⟩
  have h : (1 : ℚ) / 8 * 100 = mkRat 25 2 := by
    rw [Rat.mkRat_eq_div]
    norm_num
  rw [h]
  decide

/-! ## C5: the decimal-separator heuristic. -/

/-- The catalogue maps each question id to a single label. -/
theorem catalogue_functional :
    ∀ p1 ∈ questionCatalogue, ∀ p2 ∈ questionCatalogue, p1.1 = p2.1 → p1.2 = p2.2 := by
  decide

/-- C5: for a string question cell `s` (not a sentinel), the importer applies
exactly the claimed transform — with exactly one comma and more than one dot,
dots are stripped as thousands separators and the comma becomes the decimal
point, otherwise every comma becomes a decimal point — parses the result as a
float, stores that value on success, and on failure silently drops only that
observation: the evaluation row, the stats row and every other parseable
observation of the CSV row are still inserted. -/
theorem C5_decimal_heuristic
    (db : Db) (header : List String) (acol icol pcol : Option String)
    (year : Int) (term : String) (row : List Cell) (qid label s : String)
    (hq : (qid, label) ∈ questionCatalogue)
    (hcell : rowGet header row (qid ++ " " ++ label) = some (Cell.str s))
    (hsent : sentinels.contains (pyLower (pyStrip s)) = false) :
    (∀ v : ℚ,
      pyFloat (if s.toList.count ',' = 1 ∧ 1 < s.toList.count '.'
               then pyReplace (pyReplace (pyStrip s) "." "") "," "."
               else pyReplace (pyStrip s) "," ".") = some v →
      (⟨db.nextEvalId, qid, v⟩ : EvaluationResultRow) ∈
        (importRow header acol icol pcol year term db row).results) ∧
    (pyFloat (if s.toList.count ',' = 1 ∧ 1 < s.toList.count '.'
              then pyReplace (pyReplace (pyStrip s) "." "") "," "."
              else pyReplace (pyStrip s) "," ".") = none →
      ∀ rr : EvaluationResultRow,
        rr ∈ (importRow header acol icol pcol year term db row).results →
        rr ∉ db.results → rr.question_id ≠ qid) ∧
    (importRow header acol icol pcol year term db row).evaluations
        = db.evaluations ++ [⟨db.nextEvalId, subjectOf header row, year, term⟩] ∧
    (importRow header acol icol pcol year term db row).stats
        = db.stats ++ [statsForRow acol icol pcol header db.nextEvalId row] ∧
    (∀ (q' l' : String) (v' : ℚ), (q', l') ∈ questionCatalogue →
      cellValue (rowGet header row (q' ++ " " ++ l')) = some v' →
      (⟨db.nextEvalId, q', v'⟩ : EvaluationResultRow) ∈
        (importRow header acol icol pcol year term db row).results) := by
  have htr : (if s.toList.count ',' = 1 ∧ 1 < s.toList.count '.'
      then pyReplace (pyReplace (pyStrip s) "." "") "," "."
      else pyReplace (pyStrip s) "," ".") = normalizeDecimal s := rfl
  have hcv : cellValue (rowGet header row (qid ++ " " ++ label)) = pyFloat (normalizeDecimal s) := by
    rw [hcell]
    show (if sentinels.contains (pyLower (pyStrip s)) then none
        else pyFloat (normalizeDecimal s)) = _
    rw [hsent]
    rfl
  have hres : (importRow header acol icol pcol year term db row).results
      = db.results ++ resultsForRow header db.nextEvalId row := rfl
  have hgen : ∀ (q' l' : String) (v' : ℚ), (q', l') ∈ questionCatalogue →
      cellValue (rowGet header row (q' ++ " " ++ l')) = some v' →
      (⟨db.nextEvalId, q', v'⟩ : EvaluationResultRow) ∈
        (importRow header acol icol pcol year term db row).results := by
    intro q' l' v' hq' hcv'
    rw [hres]
    refine List.mem_append.mpr (Or.inr ?_)
    refine List.mem_filterMap.mpr ⟨(q', l'), hq', ?_⟩
    rw [hcv']
    rfl
  refine ⟨?_, ?_, rfl, rfl, hgen⟩
  · intro v hv
    exact hgen qid label v hq (by rw [hcv, ← htr, hv])
  · intro hnone rr hmem hnot
    intro hqeq
    rw [hres] at hmem
    rcases List.mem_append.mp hmem with h | h
    · exact hnot h
    · obtain ⟨⟨q2, l2⟩, hq2, hf⟩ := List.mem_filterMap.mp h
      obtain ⟨v2, hv2, hrr⟩ := Option.map_eq_some'.mp hf
      have hq2' : q2 = qid := by
        rw [← hqeq, ← hrr]
      have hl2 : l2 = label :=
        catalogue_functional (q2, l2) hq2 (qid, label) hq (by exact hq2')
      rw [hq2', hl2] at hv2
      rw [hcv, ← htr, hnone] at hv2
      exact Option.noConfusion hv2

/-- Witness for C5: the cell `"1.234.567,89"` (one comma, two dots) parses to
1234567.89 and is stored for question 1.1. -/
theorem C5_decimal_heuristic_witness :
    (⟨1, "1.1", mkRat 123456789 100⟩ : EvaluationResultRow) ∈
      (importRow ["Emne", "1.1 Forventninger"] none none none 2023 "høst" emptyDb
        [Cell.str "AOS120", Cell.str "1.234.567,89"]).results :=
  (C5_decimal_heuristic emptyDb ["Emne", "1.1 Forventninger"] none none none 2023 "høst"
      [Cell.str "AOS120", Cell.str "1.234.567,89"] "1.1" "Forventninger" "1.234.567,89"
      (by decide) (by decide) (by decide)).1 (mkRat 123456789 100) (by decide)

/-! ## C8: blank and sentinel cells. -/

/-- A prior import giving AOS120 a 2022 evaluation with question 1.1
answered (value 4), so the overview has a `"Forventninger"` column. -/
def dfBase : Df :=
  ⟨["Emne", "1.1 Forventninger"], [[Cell.str "AOS120", Cell.num 4]]⟩

/-- The store holding that prior import. -/
def baseDb : Db :=
  importDf emptyDb dfBase 2022 "høst"

/-- A one-row CSV whose only question cell is `c`. -/
def dfWith (c : Cell) : Df :=
  ⟨["Emne", "1.1 Forventninger"], [[Cell.str "AOS120", c]]⟩

/-- A one-row CSV with no question column at all. -/
def dfAbsent : Df :=
  ⟨["Emne"], [[Cell.str "AOS120"]]⟩

/-- The store produced by importing `dfWith c` on top of `baseDb`,
parameterised by the result rows of the new evaluation. -/
def c8ImportedDb (rs : List EvaluationResultRow) : Db :=
  ⟨[⟨"AOS120", none⟩], catalogueRows,
   [⟨1, "AOS120", 2022, "høst"⟩, ⟨2, "AOS120", 2023, "høst"⟩],
   [⟨1, "1.1", 4⟩] ++ rs,
   [⟨1, none, none, none⟩, ⟨2, none, none, none⟩], 3⟩

set_option maxHeartbeats 3000000 in
theorem c8_import_step (c : Cell) :
    importDf baseDb (dfWith c) 2023 "høst" =
      c8ImportedDb (resultsForRow ["Emne", "1.1 Forventninger"] 2 [Cell.str "AOS120", c]) :=
  rfl

/-- Importing `dfWith c` depends on `c` only through `cellValue`. -/
theorem c8_import_congr (c c' : Cell)
    (hcc : cellValue (some c) = cellValue (some c')) :
    importDf baseDb (dfWith c) 2023 "høst" = importDf baseDb (dfWith c') 2023 "høst" := by
  rw [c8_import_step, c8_import_step]
  congr 1
  unfold resultsForRow
  apply List.filterMap_congr
  intro ql hql
  fin_cases hql
  · show (cellValue (some c)).map _ = (cellValue (some c')).map _
    rw [hcc]
  · rfl
  · rfl
  · rfl
  · rfl
  · rfl
  · rfl

/-- C8: a question cell that is absent (no such column), blank (NaN) or a
"not applicable" sentinel (case-insensitive) produces no `EvaluationResult`
row at all, and the overview renders that year's cell for the question as
null — never zero — while the column itself still exists thanks to the other
year. -/
theorem C8_blank_sentinel (df : Df)
    (hdf : df = dfAbsent ∨ ∃ c : Cell, df = dfWith c ∧
      (c = Cell.na ∨ ∃ s : String, c = Cell.str s ∧
        sentinels.contains (pyLower (pyStrip s)) = true)) :
    (importDf baseDb df 2023 "høst").results = baseDb.results ∧
    get_subject_overview_df (importDf baseDb df 2023 "høst") "AOS120" true none =
      [[(some "År", Val.int 2022), (some "Forventninger", Val.rat 4),
        (some "Antall svar", Val.null), (some "Antall invitert", Val.null),
        (some "Svar%", Val.str "")],
       [(some "År", Val.int 2023), (some "Forventninger", Val.null),
        (some "Antall svar", Val.null), (some "Antall invitert", Val.null),
        (some "Svar%", Val.str "")]] := by
  rcases hdf with h | ⟨c, hc, hcc⟩
  · subst h
    exact ⟨by decide, by decide⟩
  · subst hc
    have hcv : cellValue (some c) = none := by
      rcases hcc with h | ⟨s, hs, hsent⟩
      · subst h
        rfl
      · subst hs
        show (if sentinels.contains (pyLower (pyStrip s)) then none
            else pyFloat (normalizeDecimal s)) = none
        rw [hsent]
        rfl
    rw [c8_import_congr c Cell.na (by rw [hcv]; rfl)]
    exact ⟨by decide, by decide⟩

/-- Witness for C8: the sentinel cell `"Ikke Relevant"`. -/
theorem C8_blank_sentinel_witness :
    (importDf baseDb (dfWith (Cell.str "Ikke Relevant")) 2023 "høst").results
        = baseDb.results ∧
    get_subject_overview_df (importDf baseDb (dfWith (Cell.str "Ikke Relevant")) 2023 "høst")
        "AOS120" true none =
      [[(some "År", Val.int 2022), (some "Forventninger", Val.rat 4),
        (some "Antall svar", Val.null), (some "Antall invitert", Val.null),
        (some "Svar%", Val.str "")],
       [(some "År", Val.int 2023), (some "Forventninger", Val.null),
        (some "Antall svar", Val.null), (some "Antall invitert", Val.null),
        (some "Svar%", Val.str "")]] :=
  C8_blank_sentinel (dfWith (Cell.str "Ikke Relevant"))
    (Or.inr ⟨Cell.str "Ikke Relevant", rfl,
      Or.inr ⟨"Ikke Relevant", rfl, by decide⟩⟩)

/-! ## C4: row and column ordering of the overview. -/

/-- The label of a question id in the store's `Question` relation. -/
def labelIn (db : Db) (q : String) : Option String :=
  (db.questions.find? (fun qr => qr.id == q)).map (fun qr => qr.label)

theorem find?_of_filter_singleton {α : Type} (p : α → Bool) :
    ∀ (l : List α) (a : α), l.filter p = [a] → l.find? p = some a := by
  intro l
  induction l with
  | nil =>
    intro a h
    simp at h
  | cons b bs ih =>
    intro a h
    rw [List.filter_cons] at h
    by_cases hb : p b = true
    · rw [if_pos hb] at h
      have hba : b = a := (List.cons_eq_cons.mp h).1
      rw [List.find?_cons_of_pos _ hb, hba]
    · rw [if_neg hb] at h
      rw [List.find?_cons_of_neg _ hb]
      exact ih a h

theorem mem_leftOpt_some {α : Type} (l : List α) (a : α) (h : some a ∈ leftOpt l) : a ∈ l := by
  cases l with
  | nil =>
    simp [leftOpt] at h
  | cons b bs =>
    have h' : some a ∈ (b :: bs).map some := h
    obtain ⟨x, hx, hxa⟩ := List.mem_map.mp h'
    cases hxa
    exact hx

theorem mem_uniqueKeepFirst {α : Type} [BEq α] [LawfulBEq α] (l : List α) (a : α) :
    a ∈ uniqueKeepFirst l ↔ a ∈ l := by
  have key : ∀ (l acc : List α),
      (a ∈ l.foldl (fun acc x => if acc.contains x then acc else acc ++ [x]) acc ↔
        a ∈ acc ∨ a ∈ l) := by
    intro l
    induction l with
    | nil =>
      intro acc
      simp
    | cons b bs ih =>
      intro acc
      rw [List.foldl_cons, ih]
      by_cases hb : acc.contains b = true
      · rw [if_pos hb]
        constructor
        · rintro (h | h)
          · exact Or.inl h
          · exact Or.inr (List.mem_cons_of_mem _ h)
        · rintro (h | h)
          · exact Or.inl h
          · rcases List.mem_cons.mp h with h | h
            · subst h
              exact Or.inl (by simpa using hb)
            · exact Or.inr h
      · rw [if_neg hb]
        constructor
        · rintro (h | h)
          · rcases List.mem_append.mp h with h | h
            · exact Or.inl h
            · simp at h
              subst h
              exact Or.inr (List.mem_cons_self _ _)
          · exact Or.inr (List.mem_cons_of_mem _ h)
        · rintro (h | h)
          · exact Or.inl (List.mem_append.mpr (Or.inl h))
          · rcases List.mem_cons.mp h with h | h
            · subst h
              exact Or.inl (List.mem_append.mpr (Or.inr (by simp)))
            · exact Or.inr h
  rw [uniqueKeepFirst, key]
  simp

theorem nodup_uniqueKeepFirst {α : Type} [BEq α] [LawfulBEq α] (l : List α) :
    (uniqueKeepFirst l).Nodup := by
  have key : ∀ (l acc : List α), acc.Nodup →
      (l.foldl (fun acc x => if acc.contains x then acc else acc ++ [x]) acc).Nodup := by
    intro l
    induction l with
    | nil =>
      intro acc h
      exact h
    | cons b bs ih =>
      intro acc h
      rw [List.foldl_cons]
      apply ih
      by_cases hb : acc.contains b = true
      · rw [if_pos hb]
        exact h
      · rw [if_neg hb]
        have hnb : b ∉ acc := by simpa using hb
        refine List.Nodup.append h (List.nodup_singleton b) ?_
        intro x hx hxb
        simp at hxb
        subst hxb
        exact hnb hx
  exact key l [] List.nodup_nil

/-- Under a well-formed `Question` relation (exactly one row per referenced
id), every fetched tuple carries the label of its question id. -/
theorem fetch_qlabel (db : Db) (subject : String)
    (hwf : ∀ rr ∈ db.results,
      (db.questions.filter (fun q => q.id == rr.question_id)).length = 1) :
    ∀ fr ∈ fetchRows db subject, ∀ k : String, fr.qid = some k → fr.qlabel = labelIn db k := by
  intro fr hfr k hk
  unfold fetchRows at hfr
  obtain ⟨e, he, hfr⟩ := List.mem_flatMap.mp hfr
  obtain ⟨saux, hs, hfr⟩ := List.mem_flatMap.mp hfr
  obtain ⟨er?, her, hfr⟩ := List.mem_flatMap.mp hfr
  obtain ⟨q?, hq?, hfr⟩ := List.mem_flatMap.mp hfr
  obtain ⟨st?, hst, hfr⟩ := List.mem_map.mp hfr
  subst hfr
  cases er? with
  | none =>
    simp at hk
  | some er =>
    have hk' : er.question_id = k := by simpa using hk
    have herm : er ∈ db.results :=
      List.mem_of_mem_filter (mem_leftOpt_some _ _ her)
    obtain ⟨q0, hq0⟩ := List.length_eq_one.mp (hwf er herm)
    rw [show (match (some er : Option EvaluationResultRow) with
        | none => ([] : List QuestionRow)
        | some er => db.questions.filter (fun q => q.id == er.question_id)) =
        db.questions.filter (fun q => q.id == er.question_id) from rfl] at hq?
    rw [hq0] at hq?
    have hq?' : q? = some q0 := by
      have : q? ∈ [some q0] := hq?
      simpa using this
    subst hq?'
    have hfind : db.questions.find? (fun qr => qr.id == k) = some q0 := by
      apply find?_of_filter_singleton
      rw [← hk']
      exact hq0
    show some q0.label = labelIn db k
    unfold labelIn
    rw [hfind]
    rfl

/-- The `groupby` label loop, characterised: when every fetched tuple's label
is determined by its question id through `f`, the ordered label list is the
(first-occurrence-deduplicated) image under `f` of the ascending distinct
question ids. -/
theorem questionOrder_eq (rows : List FetchRow) (f : String → Option String)
    (hlab : ∀ fr ∈ rows, ∀ k : String, fr.qid = some k → fr.qlabel = f k) :
    questionOrder rows = uniqueKeepFirst ((questionIdsOf rows).map f) := by
  have hkey : ∀ k ∈ questionIdsOf rows,
      ∃ r : FetchRow, ((List.insertionSort (fun a b => rowSortLe a b = true) rows).filter
          (fun r => r.qid == some k)).head? = some r ∧ r.qlabel = f k := by
    intro k hk
    have hk1 : k ∈ rows.filterMap (fun r => r.qid) := by
      have h2 := (List.mem_insertionSort _).mp hk
      exact (mem_uniqueKeepFirst _ _).mp h2
    obtain ⟨fr, hfr, hfrk⟩ := List.mem_filterMap.mp hk1
    have hfr' : fr ∈ List.insertionSort (fun a b => rowSortLe a b = true) rows :=
      (List.mem_insertionSort _).mpr hfr
    have hfil : fr ∈ (List.insertionSort (fun a b => rowSortLe a b = true) rows).filter
        (fun r => r.qid == some k) :=
      List.mem_filter.mpr ⟨hfr', by simp [hfrk]⟩
    cases hfl : (List.insertionSort (fun a b => rowSortLe a b = true) rows).filter
        (fun r => r.qid == some k) with
    | nil =>
      rw [hfl] at hfil
      exact absurd hfil (List.not_mem_nil fr)
    | cons r0 rest =>
      refine ⟨r0, rfl, ?_⟩
      have hr0 : r0 ∈ (List.insertionSort (fun a b => rowSortLe a b = true) rows).filter
          (fun r => r.qid == some k) := by
        rw [hfl]
        exact List.mem_cons_self _ _
      have hr0' := List.mem_filter.mp hr0
      have hq : r0.qid = some k := by simpa using hr0'.2
      exact hlab r0 ((List.mem_insertionSort _).mp hr0'.1) k hq
  have hfold : ∀ (ks : List String) (acc : List (Option String)),
      (∀ k ∈ ks, ∃ r : FetchRow,
        ((List.insertionSort (fun a b => rowSortLe a b = true) rows).filter
            (fun r => r.qid == some k)).head? = some r ∧ r.qlabel = f k) →
      ks.foldl (fun acc k =>
        match ((List.insertionSort (fun a b => rowSortLe a b = true) rows).filter
            (fun r => r.qid == some k)).head? with
        | none => acc
        | some r => if acc.contains r.qlabel then acc else acc ++ [r.qlabel]) acc
      = (ks.map f).foldl (fun acc x => if acc.contains x then acc else acc ++ [x]) acc := by
    intro ks
    induction ks with
    | nil =>
      intro acc _
      rfl
    | cons k ks ih =>
      intro acc hk
      obtain ⟨r, hr, hrl⟩ := hk k (List.mem_cons_self _ _)
      rw [List.foldl_cons, List.map_cons, List.foldl_cons, hr]
      simp only [hrl]
      exact ih _ (fun k' hk' => hk k' (List.mem_cons_of_mem _ hk'))
  unfold questionOrder uniqueKeepFirst
  exact hfold (questionIdsOf rows) [] hkey

theorem buildRow_head (rows : List FetchRow) (qorder : List (Option String)) (b : Bool)
    (y : Int) : (buildRow rows qorder b y).head? = some (some "År", Val.int y) := by
  unfold buildRow
  cases b with
  | false => rfl
  | true =>
    cases h : (rows.filter (fun r => r.year == y)).head? with
    | none =>
      simp only [h]
      rfl
    | some first =>
      simp only [h]
      rfl

theorem buildRow_cols (rows : List FetchRow) (qorder : List (Option String)) (y : Int)
    (hy : ∃ r ∈ rows, r.year = y) :
    (buildRow rows qorder true y).map (fun p => p.1) =
      (some "År") :: qorder ++ statsColNames.map some := by
  obtain ⟨r, hr, hry⟩ := hy
  have hne : rows.filter (fun r => r.year == y) ≠ [] := by
    intro h
    have hmem : r ∈ rows.filter (fun r => r.year == y) :=
      List.mem_filter.mpr ⟨hr, by simp [hry]⟩
    rw [h] at hmem
    exact absurd hmem (List.not_mem_nil r)
  unfold buildRow
  cases h : (rows.filter (fun r => r.year == y)).head? with
  | none =>
    exact absurd (List.head?_eq_none_iff.mp h) hne
  | some first =>
    simp only [h]
    rw [if_pos trivial, List.map_append, List.map_cons, List.map_map]
    have hq : ∀ g : Option String → Val,
        List.map ((fun p : ColName × Val => p.1) ∘ (fun ql => (ql, g ql))) qorder = qorder := by
      intro g
      have h1 : ((fun p : ColName × Val => p.1) ∘ (fun ql : Option String => (ql, g ql))) =
          fun ql : Option String => ql := rfl
      rw [h1]
      exact List.map_id' qorder
    rw [hq]
    rfl

/-! ## Claim C4: output ordering. -/

/-- A prior-year import whose only question is 1.2. -/
def dfY23 : Df :=
  ⟨["Emne", "1.2 Struktur og organisering"], [[Cell.str "AOS120", Cell.num 3]]⟩

/-- A later-year import whose only question is 1.1. -/
def dfY24 : Df :=
  ⟨["Emne", "1.1 Forventninger"], [[Cell.str "AOS120", Cell.num 5]]⟩

/-- A store where the first-appearing label (year 2023) belongs to the larger
question id 1.2. -/
def twoYearDb : Db :=
  importDf (importDf emptyDb dfY23 2023 "høst") dfY24 2024 "høst"

/-- The column order the spec's words describe: distinct question labels by
first appearance once the fetched observations are sorted by
(year, question_id). -/
def specFirstAppearance (rows : List FetchRow) : List (Option String) :=
  uniqueKeepFirst ((List.insertionSort (fun a b => rowSortLe a b = true) rows).map
    (fun r => r.qlabel))

/-- C4, counterexample: on `twoYearDb` the first-appearance order puts
`Struktur og organisering` (year 2023) before `Forventninger` (year 2024),
but the overview puts `Forventninger` first — pandas `groupby` iterates
distinct question ids in ascending order, ignoring first appearance. -/
theorem C4_counterexample :
    specFirstAppearance (overviewFetchSorted twoYearDb "AOS120")
        = [some "Struktur og organisering", some "Forventninger"]
    ∧ apiColumns (get_subject_overview_df twoYearDb "AOS120" true none)
        = [some "År", some "Forventninger", some "Struktur og organisering",
           some "Antall svar", some "Antall invitert", some "Svar%"] := by
  constructor
  · rfl
  · rfl

/-- C4, amended: under a well-formed `Question` relation, the overview's rows
are sorted strictly ascending by year (first cell `"År"`), and every row's
columns are `"År"`, then one column per distinct question id in ascending id
order (carrying that id's catalogue label, deduplicated keeping the first),
then the stats columns. -/
theorem C4_amended (db : Db) (subject : String)
    (hwf : ∀ rr ∈ db.results,
      (db.questions.filter (fun q => q.id == rr.question_id)).length = 1) :
    List.Pairwise (fun r1 r2 : OverviewRow => ∃ y1 y2 : Int,
        r1.head? = some (some "År", Val.int y1) ∧ r2.head? = some (some "År", Val.int y2) ∧
        y1 < y2)
      (get_subject_overview_df db subject true none)
    ∧ ∀ row ∈ get_subject_overview_df db subject true none,
        row.map (fun p => p.1) =
          some "År" :: uniqueKeepFirst
              ((questionIdsOf (overviewFetchSorted db subject)).map (labelIn db))
            ++ statsColNames.map some := by
  by_cases hem : (overviewFetchSorted db subject).isEmpty = true
  · have htab : get_subject_overview_df db subject true none = [] := by
      unfold get_subject_overview_df
      rw [if_pos hem]
    rw [htab]
    refine ⟨List.Pairwise.nil, ?_⟩
    intro row hrow
    exact absurd hrow (List.not_mem_nil row)
  · have htab : get_subject_overview_df db subject true none =
        (overviewYears (overviewFetchSorted db subject)).map
          (buildRow (overviewFetchSorted db subject)
            (questionOrder (overviewFetchSorted db subject)) true) := by
      unfold get_subject_overview_df
      rw [show applyQuestionFilter none (overviewFetchSorted db subject) =
          overviewFetchSorted db subject from rfl]
      rw [if_neg hem, if_neg hem]
    have hlab : ∀ fr ∈ overviewFetchSorted db subject, ∀ k : String,
        fr.qid = some k → fr.qlabel = labelIn db k := by
      intro fr hfr k hk
      exact fetch_qlabel db subject hwf fr ((List.mem_insertionSort _).mp hfr) k hk
    have hqo : questionOrder (overviewFetchSorted db subject) =
        uniqueKeepFirst ((questionIdsOf (overviewFetchSorted db subject)).map (labelIn db)) :=
      questionOrder_eq _ _ hlab
    have hyears : ∀ y ∈ overviewYears (overviewFetchSorted db subject),
        ∃ r ∈ overviewFetchSorted db subject, r.year = y := by
      intro y hy
      have h1 : y ∈ uniqueKeepFirst ((overviewFetchSorted db subject).map (fun r => r.year)) :=
        (List.mem_insertionSort _).mp hy
      have h2 : y ∈ (overviewFetchSorted db subject).map (fun r => r.year) :=
        (mem_uniqueKeepFirst _ _).mp h1
      obtain ⟨r, hr, hry⟩ := List.mem_map.mp h2
      exact ⟨r, hr, hry⟩
    refine ⟨?_, ?_⟩
    · rw [htab]
      apply List.pairwise_map.mpr
      have hsorted : List.Sorted (fun a b : Int => a ≤ b)
          (overviewYears (overviewFetchSorted db subject)) :=
        List.sorted_insertionSort _ _
      have hnd : (overviewYears (overviewFetchSorted db subject)).Nodup :=
        (List.perm_insertionSort _ _).nodup_iff.mpr (nodup_uniqueKeepFirst _)
      have hlt : List.Pairwise (fun a b : Int => a < b)
          (overviewYears (overviewFetchSorted db subject)) :=
        (hsorted.and hnd).imp (fun h => lt_of_le_of_ne h.1 h.2)
      exact hlt.imp (fun h =>
        ⟨_, _, buildRow_head _ _ _ _, buildRow_head _ _ _ _, h⟩)
    · intro row hrow
      rw [htab] at hrow
      obtain ⟨y, hy, hrow⟩ := List.mem_map.mp hrow
      subst hrow
      rw [buildRow_cols _ _ y (hyears y hy), hqo]

/-- Witness for C4 (amended): `twoYearDb` is well-formed and its overview
satisfies the amended ordering. -/
theorem C4_amended_witness :
    (∀ rr ∈ twoYearDb.results,
      (twoYearDb.questions.filter (fun q => q.id == rr.question_id)).length = 1)
    ∧ (List.Pairwise (fun r1 r2 : OverviewRow => ∃ y1 y2 : Int,
          r1.head? = some (some "År", Val.int y1) ∧ r2.head? = some (some "År", Val.int y2) ∧
          y1 < y2)
        (get_subject_overview_df twoYearDb "AOS120" true none)
      ∧ ∀ row ∈ get_subject_overview_df twoYearDb "AOS120" true none,
          row.map (fun p => p.1) =
            some "År" :: uniqueKeepFirst
                ((questionIdsOf (overviewFetchSorted twoYearDb "AOS120")).map
                  (labelIn twoYearDb))
              ++ statsColNames.map some) :=
  ⟨by decide, C4_amended twoYearDb "AOS120" (by decide)⟩
